import Mathlib

/-!
Verification development for the salute/jazz.py client of the battle_bot
repository: the access-token cache, the transcription normalizer and the
batch room provisioner, shallowly embedded in Lean.

Conventions of the embedding:
- clock readings (Python time.time and datetime values) are modelled as
  integer epoch seconds; only ordering and fixed-offset arithmetic matter
  to the verified properties;
- network calls are modelled by an oracle argument supplying the remote
  response, and by an explicit event trace recording which calls are made;
- Python exceptions are modelled with Except: a raised exception is an
  Except.error value that aborts the computation;
- file and log writes are recorded as trace events; the best-effort
  transcription log (log_transcription swallows its own failures and does
  not influence any return value) is omitted.
-/

namespace Jazz

/-! ## Access token cache (SaluteJazzAPI._get_access_token, jazz.py lines 24-63) -/

/-- State of the token cache: jazz.py lines 21-22 initialise
access_token to None and token_expires to 0. -/
structure TokenState where
  access_token : Option String
  token_expires : Int
deriving DecidableEq

/-- Python truthiness of the optional string self.access_token:
None and the empty string are both falsy. -/
def pyTruthyStr : Option String → Bool
  | none => false
  | some s => s != ""

/-- Response of the POST /v1/auth/login exchange. The code reads only
the token field (line 61); claimedExpiresIn stands for any lifetime claim
carried by the token itself, which the code never inspects. -/
structure ExchangeResult where
  token : String
  claimedExpiresIn : Option Int
deriving DecidableEq

/-- Network events issued by the token cache. -/
inductive AuthEvent
  | exchange
deriving DecidableEq

/-- Embedding of _get_access_token (jazz.py lines 24-63).
t1 is the time.time() reading of the cache check on line 25; t2 is the
time.time() reading on line 62, taken after the exchange response arrives.
xr is the body returned by the login endpoint. Returns the trace of
network calls, the new cache state and the returned token. -/
def getAccessToken (st : TokenState) (t1 t2 : Int) (xr : ExchangeResult) :
    List AuthEvent × TokenState × String :=
  if pyTruthyStr st.access_token ∧ t1 < st.token_expires then
    ([], st, st.access_token.getD "")
  else
    ([AuthEvent.exchange], ⟨some xr.token, t2 + 3600⟩, xr.token)

end Jazz

namespace Jazz

/-- Claim C4 (amended): whenever a non-empty access token is cached and the
current time is strictly before its recorded expiry, _get_access_token
returns the cached token, issues zero network calls, and leaves the cache
state unchanged. -/
theorem C4_cache_hit (st : TokenState) (tok : String) (t1 t2 : Int)
    (xr : ExchangeResult) (hc : st.access_token = some tok) (hne : tok ≠ "")
    (hlt : t1 < st.token_expires) :
    getAccessToken st t1 t2 xr = ([], st, tok) := by
  unfold getAccessToken
  rw [if_pos]
  · rw [hc]; rfl
  · refine ⟨?_, hlt⟩
    rw [hc]
    simpa [pyTruthyStr] using hne

/-- Witness for C4_cache_hit at a concrete state. -/
theorem C4_cache_hit_witness :
    getAccessToken ⟨some "tok", 100⟩ 5 7 ⟨"fresh", none⟩ =
      ([], ⟨some "tok", 100⟩, "tok") :=
  C4_cache_hit ⟨some "tok", 100⟩ "tok" 5 7 ⟨"fresh", none⟩ rfl
    (by decide) (by decide)

/-- Claim C4 counterexample: the cached token is the empty string and the
expiry is still in the future, yet the code issues an exchange call (the
Python truthiness test on line 25 treats the empty string as no token), so
the claim as stated, which promises zero network calls whenever any token
is cached with an unexpired expiry, is false. -/
theorem C4_counterexample :
    (getAccessToken ⟨some "", 100⟩ 0 50 ⟨"fresh", none⟩).1 =
      [AuthEvent.exchange] ∧
    (getAccessToken ⟨some "", 100⟩ 0 50 ⟨"fresh", none⟩).2.1 ≠
      ⟨some "", 100⟩ := by
  constructor
  · rfl
  · intro h
    have : (some "fresh" : Option String) = some "" := congrArg TokenState.access_token h
    simp at this

/-- Claim C5: whenever no token is cached or the current time is at or past
the recorded expiry, _get_access_token performs exactly one exchange call,
stores the returned token, sets the expiry to the post-exchange clock
reading plus 3600 seconds regardless of any lifetime claim carried by the
exchanged token (xr.claimedExpiresIn is arbitrary and unused), and returns
that token. -/
theorem C5_cache_refresh (st : TokenState) (t1 t2 : Int) (xr : ExchangeResult)
    (h : st.access_token = none ∨ st.token_expires ≤ t1) :
    getAccessToken st t1 t2 xr =
      ([AuthEvent.exchange], ⟨some xr.token, t2 + 3600⟩, xr.token) := by
  unfold getAccessToken
  rw [if_neg]
  rintro ⟨h1, h2⟩
  rcases h with h | h
  · rw [h] at h1
    simp [pyTruthyStr] at h1
  · exact absurd h2 (not_lt.mpr h)

/-- Witness for C5_cache_refresh at the initial state, with a token
carrying its own expiry claim of 60 seconds that is ignored. -/
theorem C5_cache_refresh_witness :
    getAccessToken ⟨none, 0⟩ 10 12 ⟨"newtok", some 60⟩ =
      ([AuthEvent.exchange], ⟨some "newtok", 3612⟩, "newtok") :=
  C5_cache_refresh ⟨none, 0⟩ 10 12 ⟨"newtok", some 60⟩ (Or.inl rfl)

end Jazz

namespace Jazz

/-! ## Transcription normalizer (parse_transcriptions, jazz.py lines 184-247) -/

/-- Python datetime value: civil is the naive clock reading in epoch-style
seconds and offset is the attached UTC offset in seconds, none for a naive
datetime. The UTC instant of an aware value is civil minus offset. -/
structure PyDateTime where
  civil : Int
  offset : Option Int
deriving DecidableEq

/-- Fixed +3 hour offset of line 205, in seconds. -/
def mskOffset : Int := 10800

/-- Python comparison a < b on datetimes: aware values compare by UTC
instant, naive values by civil reading, and mixing a naive with an aware
value raises TypeError. -/
def pyLt (a b : PyDateTime) : Except String Bool :=
  match a.offset, b.offset with
  | some oa, some ob => Except.ok (decide (a.civil - oa < b.civil - ob))
  | none, none => Except.ok (decide (a.civil < b.civil))
  | _, _ => Except.error "TypeError: cannot compare naive and aware datetimes"

/-- Lines 207-223: a naive window bound is stamped with the +3 offset
(replace tzinfo=msk), an aware bound keeps its own offset, and the result
is converted to UTC (astimezone utc), yielding an aware UTC value whose
civil reading is the UTC instant. -/
def boundToUtc (b : PyDateTime) : PyDateTime :=
  match b.offset with
  | none => ⟨b.civil - mskOffset, some 0⟩
  | some o => ⟨b.civil - o, some 0⟩

/-- One element of the transcriptions list. Each field is optional because
the code reads participantName and text with dict.get and createdAt with a
raising lookup; createdAt is the datetime parsed on lines 200-202 (a
missing key, like an unparsable value, raises and is modelled as none). -/
structure Entry where
  participantName : Option String
  text : Option String
  createdAt : Option PyDateTime
deriving DecidableEq

/-- Payload of get_transcriptions after json.loads: the transcriptions list
(absent key modelled as none, read with data.get on line 191) and the
roomId used only for logging. -/
structure Payload where
  transcriptions : Option (List Entry)
  roomId : Option String
deriving DecidableEq

/-- Line 195: an entry survives the allow-list test only when its
participantName is present and a member of known_names; a missing name
yields Python None, which equals no string, so it never matches. -/
def nameAllowed : Option String → List String → Bool
  | none, _ => false
  | some nm, known => known.contains nm

/-- Lines 204-229, run when at least one bound is supplied: both bounds are
converted to UTC, then the entry is discarded when created_at < start
(checked first, lines 226-227) or created_at > end (lines 228-229); an
entry lying exactly on a bound passes both strict tests and is kept. -/
def windowKeep (start_time end_time : Option PyDateTime) (ca : PyDateTime) :
    Except String Bool :=
  match start_time.map boundToUtc, end_time.map boundToUtc with
  | some su, some eu => do
    let ltStart ← pyLt ca su
    if ltStart then pure false
    else do
      let gtEnd ← pyLt eu ca
      pure (!gtEnd)
  | some su, none => do
    let ltStart ← pyLt ca su
    pure (!ltStart)
  | none, some eu => do
    let gtEnd ← pyLt eu ca
    pure (!gtEnd)
  | none, none => pure true

/-- Filtering loop of lines 193-231, in list order: the allow-list test of
line 195 runs first; only when a bound is supplied is createdAt read (a
missing value raises KeyError, aborting the whole call); surviving entries
are appended in their original order. -/
def filterEntries (known : List String)
    (start_time end_time : Option PyDateTime) :
    List Entry → Except String (List Entry)
  | [] => Except.ok []
  | t :: rest =>
    if nameAllowed t.participantName known then
      if start_time.isSome || end_time.isSome then
        match t.createdAt with
        | none => Except.error "KeyError: createdAt"
        | some ca => do
          let keep ← windowKeep start_time end_time ca
          let tail ← filterEntries known start_time end_time rest
          pure (if keep then t :: tail else tail)
      else do
        let tail ← filterEntries known start_time end_time rest
        pure (t :: tail)
    else
      filterEntries known start_time end_time rest

/-- Rendering of lines 234-237: a missing participantName falls back to the
placeholder Неизвестный (Russian for Unknown) and a missing text to the
empty string. -/
def renderEntry (t : Entry) : String :=
  t.participantName.getD "Неизвестный" ++ ": " ++ t.text.getD ""

/-- Embedding of parse_transcriptions (jazz.py lines 184-247): filter, then
render one line per surviving entry, joined by newlines. The
log_transcription side effect swallows its own failures and does not
influence the return value, so it is omitted. -/
def parse_transcriptions (payload : Payload) (known_names : List String)
    (start_time end_time : Option PyDateTime) : Except String String := do
  let filtered ← filterEntries known_names start_time end_time
    (payload.transcriptions.getD [])
  pure (String.intercalate "\n" (filtered.map renderEntry))

/-- Rendering rule restated from the spec wording, for the refinement claim
about the no-window path: keep exactly the entries whose participant name
is a member of the allow-list under exact string comparison, in original
list order, render each as name-colon-space-text, and join the lines with
newline separators. -/
def specNormalize (ts : List Entry) (known : List String) : String :=
  String.intercalate "\n"
    ((ts.filter fun t =>
        match t.participantName with
        | some nm => known.contains nm
        | none => false).map
      fun t => t.participantName.getD "" ++ ": " ++ t.text.getD "")

/-- A successful allow-list test means the name is present and a member of
the allow-list. -/
theorem nameAllowed_eq_true {op : Option String} {known : List String}
    (h : nameAllowed op known = true) :
    ∃ nm, op = some nm ∧ nm ∈ known := by
  cases op with
  | none => simp [nameAllowed] at h
  | some nm =>
    refine ⟨nm, rfl, ?_⟩
    exact List.mem_of_elem_eq_true h

/-- With no window supplied, the filtering loop keeps exactly the
allow-listed entries, in order, and never raises. -/
theorem filterEntries_no_window (known : List String) (ts : List Entry) :
    filterEntries known none none ts =
      Except.ok (ts.filter fun t => nameAllowed t.participantName known) := by
  induction ts with
  | nil => rfl
  | cons t rest ih =>
    by_cases h : nameAllowed t.participantName known
    · simp [filterEntries, h, List.filter_cons, ih, Except.bind]
    · simp [filterEntries, h, List.filter_cons, ih]

/-- Every entry surviving the filtering loop passed the allow-list test. -/
theorem filterEntries_mem_allowed (known : List String)
    (s e : Option PyDateTime) :
    ∀ ts fs : List Entry, filterEntries known s e ts = Except.ok fs →
      ∀ t ∈ fs, nameAllowed t.participantName known = true := by
  intro ts
  induction ts with
  | nil =>
    intro fs h t ht
    simp only [filterEntries] at h
    cases h
    simp at ht
  | cons a rest ih =>
    intro fs h t ht
    by_cases hn : nameAllowed a.participantName known = true
    · by_cases hw : (s.isSome || e.isSome) = true
      · cases hca : a.createdAt with
        | none =>
          simp [filterEntries, hn, hw, hca] at h
        | some ca =>
          simp only [filterEntries, if_pos hn, hw, if_pos, hca] at h
          cases hk : windowKeep s e ca with
          | error msg =>
            rw [hk] at h
            simp [Bind.bind, Except.bind] at h
          | ok keep =>
            rw [hk] at h
            cases hrest : filterEntries known s e rest with
            | error msg =>
              rw [hrest] at h
              simp [Bind.bind, Except.bind] at h
            | ok tail =>
              rw [hrest] at h
              simp only [Bind.bind, Except.bind, Pure.pure, Except.pure,
                Except.ok.injEq] at h
              subst h
              by_cases hkeep : keep = true
              · rw [if_pos hkeep] at ht
                rcases List.mem_cons.mp ht with hta | htt
                · rw [hta]; exact hn
                · exact ih tail hrest t htt
              · rw [if_neg hkeep] at ht
                exact ih tail hrest t ht
      · simp only [filterEntries, if_pos hn, hw, if_neg] at h
        cases hrest : filterEntries known s e rest with
        | error msg =>
          rw [hrest] at h
          simp [Bind.bind, Except.bind] at h
        | ok tail =>
          rw [hrest] at h
          simp only [Bind.bind, Except.bind, Pure.pure, Except.pure,
            Bool.false_eq_true, if_false, Except.ok.injEq] at h
          subst h
          rcases List.mem_cons.mp ht with hta | htt
          · rw [hta]; exact hn
          · exact ih tail hrest t htt
    · simp only [filterEntries, if_neg hn] at h
      exact ih fs h t ht

end Jazz

namespace Jazz

/-- Claim C2 (amended): the rendering step of parse_transcriptions does
substitute the fixed placeholder Неизвестный for a missing participant
name, but an entry with a missing name never reaches rendering: the
allow-list filter on line 195 discards it, because Python None is equal to
no string of known_names; every rendered entry carries a name that is a
member of the allow-list. -/
theorem C2_placeholder_dead (known : List String) (s e : Option PyDateTime)
    (ts fs : List Entry) (h : filterEntries known s e ts = Except.ok fs) :
    (∀ t ∈ fs, ∃ nm, t.participantName = some nm ∧ nm ∈ known) ∧
    (∀ t : Entry, t.participantName = none →
      renderEntry t = "Неизвестный" ++ ": " ++ t.text.getD "") := by
  constructor
  · intro t ht
    exact nameAllowed_eq_true (filterEntries_mem_allowed known s e ts fs h t ht)
  · intro t htn
    simp [renderEntry, htn]

/-- Witness for C2_placeholder_dead on a concrete filtered payload. -/
theorem C2_placeholder_dead_witness :
    (∀ t ∈ [(⟨some "Alice", some "hi", none⟩ : Entry)],
      ∃ nm, t.participantName = some nm ∧ nm ∈ ["Alice"]) ∧
    (∀ t : Entry, t.participantName = none →
      renderEntry t = "Неизвестный" ++ ": " ++ t.text.getD "") :=
  C2_placeholder_dead ["Alice"] none none
    [⟨some "Alice", some "hi", none⟩] [⟨some "Alice", some "hi", none⟩] rfl

/-- Claim C2 counterexample: a payload whose only entry has no participant
name produces the empty output, with no placeholder line, even when the
placeholder itself is on the allow-list, refuting the claim that some such
payload yields a placeholder-named line. -/
theorem C2_counterexample :
    parse_transcriptions ⟨some [⟨none, some "hi", none⟩], none⟩ ["Alice"]
        none none = Except.ok "" ∧
    parse_transcriptions ⟨some [⟨none, some "hi", none⟩], none⟩
        ["Неизвестный"] none none = Except.ok "" := by
  exact ⟨rfl, rfl⟩

/-- Claim C7: with no window supplied, parse_transcriptions returns exactly
one line name-colon-space-text per entry whose participant name is a member
of the allow-list under exact string comparison, in the original payload
order, joined by newlines, as restated by specNormalize. -/
theorem C7_filter_order_render (payload : Payload) (known : List String) :
    parse_transcriptions payload known none none =
      Except.ok (specNormalize (payload.transcriptions.getD []) known) := by
  have hpred : (fun t : Entry =>
      match t.participantName with
      | some nm => known.contains nm
      | none => false) = fun t : Entry => nameAllowed t.participantName known := by
    funext t
    cases t.participantName <;> rfl
  unfold parse_transcriptions specNormalize
  rw [hpred, filterEntries_no_window]
  simp only [Bind.bind, Except.bind, Pure.pure, Except.pure, Except.ok.injEq]
  congr 1
  apply List.map_congr_left
  intro t ht
  obtain ⟨nm, hnm, _⟩ := nameAllowed_eq_true (List.mem_filter.mp ht).2
  simp [renderEntry, hnm]

/-- Claim C8: a payload with no transcriptions key is treated as an empty
list, and whenever zero entries survive filtering the result is the empty
string, without an error value. -/
theorem C8_absent_and_empty (payload : Payload) (known : List String)
    (s e : Option PyDateTime) (rid : Option String)
    (h : filterEntries known s e (payload.transcriptions.getD []) =
      Except.ok []) :
    parse_transcriptions ⟨none, rid⟩ known s e = Except.ok "" ∧
    parse_transcriptions payload known s e = Except.ok "" := by
  constructor
  · rfl
  · unfold parse_transcriptions
    rw [h]
    rfl

/-- Witness for C8_absent_and_empty: all entries filtered out. -/
theorem C8_absent_and_empty_witness :
    parse_transcriptions ⟨none, some "room9"⟩ ["Alice"] none none =
        Except.ok "" ∧
    parse_transcriptions ⟨some [⟨some "Bob", some "yo", none⟩], none⟩
        ["Alice"] none none = Except.ok "" :=
  C8_absent_and_empty ⟨some [⟨some "Bob", some "yo", none⟩], none⟩ ["Alice"]
    none none (some "room9") rfl

/-- Claim C9: when a window bound is supplied, the createdAt field of an
allow-listed entry is read unconditionally; on this concrete payload whose
allow-listed entry lacks createdAt, the call raises (an error value)
instead of discarding or rendering the entry. -/
theorem C9_missing_createdAt_raises :
    parse_transcriptions ⟨some [⟨some "Alice", some "hi", none⟩], none⟩
        ["Alice"] (some ⟨0, none⟩) none =
      Except.error "KeyError: createdAt" := rfl

/-- Claim C10: a surviving entry with no text field renders as the
participant name followed by a colon and a space, with empty text, and
still contributes one line to the output. -/
theorem C10_missing_text (nm : String) (known : List String)
    (rid : Option String) (h : known.contains nm = true) :
    parse_transcriptions ⟨some [⟨some nm, none, none⟩], rid⟩ known
        none none = Except.ok (nm ++ ": ") := by
  unfold parse_transcriptions
  rw [filterEntries_no_window]
  have hna : nameAllowed (some nm) known = true := h
  simp [List.filter_cons, hna, renderEntry, String.intercalate]
  rfl

/-- Witness for C10_missing_text. -/
theorem C10_missing_text_witness :
    parse_transcriptions ⟨some [⟨some "Alice", none, none⟩], none⟩ ["Alice"]
        none none = Except.ok ("Alice" ++ ": ") :=
  C10_missing_text "Alice" ["Alice"] none rfl

/-- The bound conversion of lines 207-223 subtracts the attached offset
when one is present and the fixed +3 hour offset otherwise, producing an
aware UTC value. -/
theorem boundToUtc_eq (b : PyDateTime) :
    boundToUtc b = ⟨b.civil - b.offset.getD mskOffset, some 0⟩ := by
  cases hb : b.offset <;> simp [boundToUtc, hb]

/-- With both bounds supplied and an aware createdAt, the window test keeps
the entry exactly when its UTC instant lies between the UTC instants of the
two converted bounds, inclusively. -/
theorem windowKeep_both (sb eb ca : PyDateTime) (o : Int)
    (hca : ca.offset = some o) :
    windowKeep (some sb) (some eb) ca =
      Except.ok (decide
        (sb.civil - sb.offset.getD mskOffset ≤ ca.civil - o ∧
         ca.civil - o ≤ eb.civil - eb.offset.getD mskOffset)) := by
  simp only [windowKeep, Option.map_some', boundToUtc_eq, pyLt, hca,
    Bind.bind, Except.bind, Pure.pure, Except.pure, sub_zero]
  by_cases h1 : ca.civil - o < sb.civil - sb.offset.getD mskOffset
  · simp [h1, not_le.mpr h1]
  · by_cases h2 : eb.civil - eb.offset.getD mskOffset < ca.civil - o
    · simp [h1, h2, not_le.mpr h2]
    · simp [h1, h2, not_lt.mp h1, not_lt.mp h2]

/-- Filtering a single allow-listed entry with both bounds supplied keeps
it exactly when its aware createdAt lies within the converted window. -/
theorem filterEntries_window_single (known : List String)
    (sb eb : PyDateTime) (t : Entry) (ca : PyDateTime) (o : Int)
    (hna : nameAllowed t.participantName known = true)
    (hct : t.createdAt = some ca) (hca : ca.offset = some o) :
    filterEntries known (some sb) (some eb) [t] =
      Except.ok
        (if sb.civil - sb.offset.getD mskOffset ≤ ca.civil - o ∧
            ca.civil - o ≤ eb.civil - eb.offset.getD mskOffset
         then [t] else []) := by
  simp only [filterEntries, hna, if_pos, Option.isSome_some, Bool.or_self,
    hct]
  rw [windowKeep_both sb eb ca o hca]
  by_cases hP : sb.civil - sb.offset.getD mskOffset ≤ ca.civil - o ∧
      ca.civil - o ≤ eb.civil - eb.offset.getD mskOffset
  · simp [hP, Bind.bind, Except.bind, Pure.pure, Except.pure, filterEntries]
  · simp [hP, Bind.bind, Except.bind, Pure.pure, Except.pure, filterEntries]

/-- Claim C6: with a window supplied, a bound with no offset marker is
interpreted as civil time at the fixed +3 hour offset (its UTC instant is
civil minus mskOffset) while a bound carrying an offset o keeps it (civil
minus o), both bounds are compared with the UTC instant of createdAt, and
the window is inclusive at both ends: the entry is kept exactly when its
instant is at least the start instant and at most the end instant. -/
theorem C6_window_inclusive_utc (sb eb ca : PyDateTime) (o : Int)
    (nm txt : String) (known : List String) (rid : Option String)
    (hca : ca.offset = some o) (hnm : known.contains nm = true) :
    parse_transcriptions ⟨some [⟨some nm, some txt, some ca⟩], rid⟩ known
        (some sb) (some eb) =
      Except.ok
        (if sb.civil - sb.offset.getD mskOffset ≤ ca.civil - o ∧
            ca.civil - o ≤ eb.civil - eb.offset.getD mskOffset
         then nm ++ ": " ++ txt else "") := by
  have hna : nameAllowed (some nm) known = true := hnm
  unfold parse_transcriptions
  rw [show (⟨some [⟨some nm, some txt, some ca⟩], rid⟩ :
      Payload).transcriptions.getD [] = [⟨some nm, some txt, some ca⟩]
    from rfl]
  rw [filterEntries_window_single known sb eb _ ca o hna rfl hca]
  by_cases hP : sb.civil - sb.offset.getD mskOffset ≤ ca.civil - o ∧
      ca.civil - o ≤ eb.civil - eb.offset.getD mskOffset
  · simp only [hP, if_pos, Bind.bind, Except.bind, Pure.pure, Except.pure]
    simp [renderEntry, String.intercalate]
    rfl
  · simp only [hP, if_neg, Bind.bind, Except.bind, Pure.pure, Except.pure]
    rfl

/-- Witness for C6_window_inclusive_utc, on the civil times of testable
property 4 of the spec: entry at 15:00 MSK (noon UTC, 43200 seconds),
naive bounds 14:30 and 15:30 (civil seconds 52200 and 55800); the entry
falls inside the converted window and is rendered. -/
theorem C6_window_inclusive_utc_witness :
    parse_transcriptions
        ⟨some [⟨some "Alice", some "hi", some ⟨43200, some 0⟩⟩], none⟩
        ["Alice"] (some ⟨52200, none⟩) (some ⟨55800, none⟩) =
      Except.ok "Alice: hi" := by
  have h := C6_window_inclusive_utc ⟨52200, none⟩ ⟨55800, none⟩
    ⟨43200, some 0⟩ 0 "Alice" "hi" ["Alice"] none rfl rfl
  simpa [mskOffset] using h

end Jazz

namespace Jazz

/-! ## Batch room provisioner (create_rooms, jazz.py lines 157-172) -/

/-- Errors a room creation can surface. The code raises plain exceptions
and defines no error classes of its own; roomServiceError stands for any
exception raised inside api.create_room (a non-2xx response, an unparsable
body, or a response lacking roomId or roomUrl, lines 162-163).
provisioningError is modelled from the spec: its section 7 taxonomy names
a ProvisioningError wrapping a mid-batch failure, a class that appears
nowhere in the code; the constructor exists only so that statements can
ask whether the batch operation produces one. -/
inductive JazzError
  | roomServiceError (msg : String)
  | provisioningError (msg : String)
deriving DecidableEq

/-- Fields of a successful create_room response that create_rooms reads
(lines 162-163). -/
structure RoomData where
  roomId : String
  roomUrl : String
deriving DecidableEq

/-- Side effects of create_rooms, in order: a room-creation request with
its title (line 161), the fixed one second pause (line 167), the final
json.dump of the mapping to save_path (lines 169-170). disableRoom is the
api.disable_room call; create_rooms never issues it, and the constructor
exists so that the absence of rollback calls is expressible. -/
inductive RoomEvent
  | create (title : String)
  | sleep (seconds : Nat)
  | persist (path : String) (mapping : List (String × String))
  | disableRoom (roomId : String)
deriving DecidableEq

/-- Label of the i-th room created, 0-based i rendered 1-based
(line 161). -/
def roomLabel (i : Nat) : String := "Room #" ++ toString (i + 1)

/-- Loop body of create_rooms (lines 160-167): n is the number of
iterations left, i the index of the next room, rooms the mapping built so
far (a Python dict keyed by the pairwise distinct labels, modelled as the
association list in insertion order). Each iteration asks the oracle for
the response of api.create_room, appends the label-url pair and sleeps one
second; the loop body raises through: a failed creation aborts everything
with that same error, and after the last iteration the mapping is written
to save_path and returned. -/
def createRoomsGo (oracle : Nat → Except JazzError RoomData)
    (save_path : String) :
    Nat → Nat → List (String × String) →
      List RoomEvent × Except JazzError (List (String × String))
  | 0, _, rooms => ([RoomEvent.persist save_path rooms], Except.ok rooms)
  | n + 1, i, rooms =>
    match oracle i with
    | Except.error e => ([RoomEvent.create (roomLabel i)], Except.error e)
    | Except.ok rd =>
      let r := createRoomsGo oracle save_path n (i + 1)
        (rooms ++ [(roomLabel i, rd.roomUrl)])
      (RoomEvent.create (roomLabel i) :: RoomEvent.sleep 1 :: r.1, r.2)

/-- Embedding of create_rooms (jazz.py lines 157-172): the oracle gives
the outcome of the i-th api.create_room call. Returns the ordered trace of
side effects and either the final label-url mapping or the propagated
error. -/
def create_rooms (oracle : Nat → Except JazzError RoomData) (count : Nat)
    (save_path : String) :
    List RoomEvent × Except JazzError (List (String × String)) :=
  createRoomsGo oracle save_path count 0 []

/-- Recognises the sleep events of a trace. -/
def isSleepEvent : RoomEvent → Bool
  | RoomEvent.sleep _ => true
  | _ => false

/-- Oracle under which every creation succeeds. -/
def okOracle : Nat → Except JazzError RoomData :=
  fun i => Except.ok ⟨"id" ++ toString i, "url" ++ toString i⟩

/-- Oracle under which the second creation (index 1) fails and every other
one succeeds. -/
def failSecondOracle : Nat → Except JazzError RoomData :=
  fun i =>
    if i = 1 then Except.error (JazzError.roomServiceError "boom")
    else Except.ok ⟨"id" ++ toString i, "url" ++ toString i⟩

end Jazz

namespace Jazz

/-- Trace and result of a fully successful run of the provisioning loop,
starting at index i with accumulator rooms: one creation event followed by
one sleep event per index of range' i n, then a single persist of the
mapping extended by one label-url pair per index. -/
theorem createRoomsGo_success (oracle : Nat → Except JazzError RoomData)
    (rds : Nat → RoomData) (path : String) :
    ∀ (n i : Nat) (rooms : List (String × String)),
      (∀ j, i ≤ j → j < i + n → oracle j = Except.ok (rds j)) →
      createRoomsGo oracle path n i rooms =
        ((List.range' i n).flatMap
            (fun j => [RoomEvent.create (roomLabel j), RoomEvent.sleep 1]) ++
          [RoomEvent.persist path (rooms ++ (List.range' i n).map
            (fun j => (roomLabel j, (rds j).roomUrl)))],
         Except.ok (rooms ++ (List.range' i n).map
            (fun j => (roomLabel j, (rds j).roomUrl)))) := by
  intro n
  induction n with
  | zero =>
    intro i rooms h
    simp [createRoomsGo]
  | succ n ih =>
    intro i rooms h
    have h0 : oracle i = Except.ok (rds i) :=
      h i (Nat.le_refl i) (by omega)
    have hrec := ih (i + 1) (rooms ++ [(roomLabel i, (rds i).roomUrl)])
      (fun j hj1 hj2 => h j (by omega) (by omega))
    simp only [createRoomsGo, h0, hrec, List.range'_succ, List.flatMap_cons,
      List.map_cons, List.cons_append, List.append_assoc]
    simp

/-- Trace and result of a run of the provisioning loop whose k-th creation
(0-based, k below the requested count) fails with error e after k
successful creations: the trace holds the k successful creation events
each followed by a sleep, then the failing creation event and nothing
else, and the error is propagated unchanged. -/
theorem createRoomsGo_failure (oracle : Nat → Except JazzError RoomData)
    (path : String) (e : JazzError) :
    ∀ (k n i : Nat) (rooms : List (String × String)),
      k < n →
      (∀ j, i ≤ j → j < i + k → ∃ rd, oracle j = Except.ok rd) →
      oracle (i + k) = Except.error e →
      createRoomsGo oracle path n i rooms =
        ((List.range' i k).flatMap
            (fun j => [RoomEvent.create (roomLabel j), RoomEvent.sleep 1]) ++
          [RoomEvent.create (roomLabel (i + k))],
         Except.error e) := by
  intro k
  induction k with
  | zero =>
    intro n i rooms hk hok herr
    cases n with
    | zero => exact absurd hk (Nat.lt_irrefl 0)
    | succ m =>
      rw [show i + 0 = i from rfl] at herr
      simp [createRoomsGo, herr]
  | succ k ih =>
    intro n i rooms hk hok herr
    cases n with
    | zero => exact absurd hk (Nat.not_lt_zero _)
    | succ m =>
      obtain ⟨rd, hrd⟩ := hok i (Nat.le_refl i) (by omega)
      have herr' : oracle (i + 1 + k) = Except.error e := by
        rw [show i + 1 + k = i + (k + 1) from by omega]
        exact herr
      have hrec := ih m (i + 1) (rooms ++ [(roomLabel i, rd.roomUrl)])
        (by omega) (fun j hj1 hj2 => hok j (by omega) (by omega)) herr'
      have hidx : i + 1 + k = i + (k + 1) := by omega
      simp only [createRoomsGo, hrd, hrec, hidx, List.range'_succ,
        List.flatMap_cons, List.cons_append, List.append_assoc]
      simp

end Jazz

namespace Jazz

/-- Claim C1 (amended): for every positive count, when all creations
succeed, create_rooms issues exactly count sequential creation calls
labeled Room number 1 through Room number count (roomLabel 0-based on
List.range count), sleeps the fixed one second delay exactly count times,
once after every creation including the final one, persists and returns
the mapping whose keys are exactly those labels, each mapped to the
returned room URL. -/
theorem C1_batch_success (oracle : Nat → Except JazzError RoomData)
    (rds : Nat → RoomData) (count : Nat) (path : String)
    (_hpos : 0 < count)
    (hok : ∀ i, i < count → oracle i = Except.ok (rds i)) :
    create_rooms oracle count path =
      ((List.range count).flatMap
          (fun i => [RoomEvent.create (roomLabel i), RoomEvent.sleep 1]) ++
        [RoomEvent.persist path
          ((List.range count).map fun i => (roomLabel i, (rds i).roomUrl))],
       Except.ok
         ((List.range count).map fun i => (roomLabel i, (rds i).roomUrl))) := by
  have h := createRoomsGo_success oracle rds path count 0 []
    (fun j hj1 hj2 => hok j (by omega))
  rw [create_rooms, h, List.range_eq_range']
  simp

/-- Witness for C1_batch_success with count 2 under the all-success
oracle. -/
theorem C1_batch_success_witness :
    create_rooms okOracle 2 "jazz_rooms.json" =
      ((List.range 2).flatMap
          (fun i => [RoomEvent.create (roomLabel i), RoomEvent.sleep 1]) ++
        [RoomEvent.persist "jazz_rooms.json"
          ((List.range 2).map fun i =>
            (roomLabel i, "url" ++ toString i))],
       Except.ok
         ((List.range 2).map fun i => (roomLabel i, "url" ++ toString i))) :=
  C1_batch_success okOracle
    (fun i => ⟨"id" ++ toString i, "url" ++ toString i⟩) 2 "jazz_rooms.json"
    (by decide) (fun i _ => rfl)

/-- Claim C1 counterexample: for count 2 with every creation succeeding,
the trace holds 2 sleep events, not the single inter-call delay the claim
promises (the sleep on line 167 sits inside the loop body and also runs
after the final creation). -/
theorem C1_counterexample :
    (create_rooms okOracle 2 "jazz_rooms.json").1.countP isSleepEvent = 2 ∧
    (2 : Nat) ≠ 2 - 1 := by
  constructor
  · rfl
  · decide

/-- Claim C3 (amended): if the creation at 0-based index k fails after k
successful creations, the whole operation fails by propagating that same
error unchanged (the code defines no ProvisioningError wrapper), the trace
holds exactly the k + 1 creation calls issued up to and including the
failing one (so no further creations are attempted), the mapping is never
persisted, and no compensating disable call is issued, so the rooms
already created remain created remotely. -/
theorem C3_partial_failure (oracle : Nat → Except JazzError RoomData)
    (count k : Nat) (e : JazzError) (path : String)
    (hk : k < count)
    (hok : ∀ j, j < k → ∃ rd, oracle j = Except.ok rd)
    (herr : oracle k = Except.error e) :
    create_rooms oracle count path =
      ((List.range k).flatMap
          (fun j => [RoomEvent.create (roomLabel j), RoomEvent.sleep 1]) ++
        [RoomEvent.create (roomLabel k)],
       Except.error e) ∧
    (∀ p m, RoomEvent.persist p m ∉ (create_rooms oracle count path).1) ∧
    (∀ r, RoomEvent.disableRoom r ∉ (create_rooms oracle count path).1) := by
  have h := createRoomsGo_failure oracle path e k count 0 []
    hk (fun j hj1 hj2 => hok j (by omega)) (by rw [Nat.zero_add]; exact herr)
  have hmain : create_rooms oracle count path =
      ((List.range k).flatMap
          (fun j => [RoomEvent.create (roomLabel j), RoomEvent.sleep 1]) ++
        [RoomEvent.create (roomLabel k)],
       Except.error e) := by
    rw [create_rooms, h, List.range_eq_range']
    simp
  refine ⟨hmain, ?_, ?_⟩
  · intro p m hmem
    rw [hmain] at hmem
    simp only [List.mem_append, List.mem_flatMap, List.mem_cons,
      List.mem_singleton] at hmem
    rcases hmem with ⟨j, _, hj⟩ | hj <;> simp at hj
  · intro r hmem
    rw [hmain] at hmem
    simp only [List.mem_append, List.mem_flatMap, List.mem_cons,
      List.mem_singleton] at hmem
    rcases hmem with ⟨j, _, hj⟩ | hj <;> simp at hj

/-- Witness for C3_partial_failure: the second creation fails under
failSecondOracle with count 3. -/
theorem C3_partial_failure_witness :
    (create_rooms failSecondOracle 3 "jazz_rooms.json" =
      ((List.range 1).flatMap
          (fun j => [RoomEvent.create (roomLabel j), RoomEvent.sleep 1]) ++
        [RoomEvent.create (roomLabel 1)],
       Except.error (JazzError.roomServiceError "boom")) ∧
    (∀ p m, RoomEvent.persist p m ∉
      (create_rooms failSecondOracle 3 "jazz_rooms.json").1) ∧
    (∀ r, RoomEvent.disableRoom r ∉
      (create_rooms failSecondOracle 3 "jazz_rooms.json").1)) :=
  C3_partial_failure failSecondOracle 3 1
    (JazzError.roomServiceError "boom") "jazz_rooms.json" (by decide)
    (fun j hj => ⟨⟨"id" ++ toString j, "url" ++ toString j⟩, by
      have hj0 : j = 0 := by omega
      rw [hj0]
      rfl⟩)
    rfl

/-- Claim C3 counterexample: when the second creation fails with a room
service error, create_rooms surfaces exactly that error; it is not a
provisioningError value for any message, refuting the claim that the
operation fails with ProvisioningError. -/
theorem C3_counterexample :
    (create_rooms failSecondOracle 3 "jazz_rooms.json").2 =
      Except.error (JazzError.roomServiceError "boom") ∧
    ∀ m : String, (create_rooms failSecondOracle 3 "jazz_rooms.json").2 ≠
      Except.error (JazzError.provisioningError m) := by
  have h : (create_rooms failSecondOracle 3 "jazz_rooms.json").2 =
      Except.error (JazzError.roomServiceError "boom") := rfl
  refine ⟨h, ?_⟩
  intro m hcontra
  rw [h] at hcontra
  simp at hcontra

end Jazz
